import Mathlib

/-!
Verification of the HLogMonitor repository (Go): an incremental log-file
monitor that polls a file's size and modification time, reads the newly
appended byte range on growth, and forwards it to a Kafka topic.

The embedding below translates the Kafka-variant monitor (the Go program
found in `src/sample_log/generate_logs.sh` after the script) and the plain
monitor (`src/monitor.go`); the two share `getFileInfo` and the poll-loop
structure, and the Kafka variant's `readNewContent` is the plain variant's
`displayNewContent` returning its buffer.

File I/O is made explicit: the result of `os.Stat` is an `Option FileInfo`
input to each tick, the outcome of the open/seek/read sequence inside
`readNewContent` is a `ReadOutcome` input (`ok n` = all calls succeeded and
the single `file.Read` returned `n` bytes with a nil error), and the file's
byte content at observation time is a `List Char` (Go strings are byte
sequences, modelled one `Char` per byte).
-/

/-- Result of a successful `os.Stat`: size in bytes and modification time
(`time.Time` modelled as a natural number; `0` is the zero `time.Time{}`,
and `t.After u` is `t > u`). -/
structure FileInfo where
  size : Nat
  modTime : Nat
deriving DecidableEq, Repr

/-- The monitor loop's mutable state: `lastSize` and `lastModTime`. -/
structure MonitorState where
  lastSize : Nat
  lastModTime : Nat
deriving DecidableEq, Repr

/-- Outcome of the open/seek/read sequence inside `readNewContent` /
`displayNewContent`: which call failed, or `ok n` meaning open and seek
succeeded and the single `file.Read` call returned `n` bytes with nil
error. -/
inductive ReadOutcome where
  | openErr
  | seekErr
  | readErr
  | ok (n : Nat)
deriving DecidableEq, Repr

/-- Whether the outcome is one of the three error cases. -/
def ReadOutcome.isErr : ReadOutcome → Bool
  | .openErr => true
  | .seekErr => true
  | .readErr => true
  | .ok _ => false

/-- Go `getFileInfo`: on stat error it logs a warning and returns
`(0, time.Time{})`; otherwise the stat result. -/
def getFileInfo (statResult : Option FileInfo) : FileInfo :=
  match statResult with
  | none => ⟨0, 0⟩
  | some fi => fi

/-- Go `readNewContent` (and the buffer of `displayNewContent`): allocate a
zero-filled buffer of `newSize - oldSize` bytes, seek to `oldSize`, issue one
`file.Read`; on any error return `""`; otherwise convert the WHOLE buffer to
a string — the first `n` bytes (clamped by the buffer length and by the bytes
available past `oldSize`) come from the file, the rest keep their zero fill. -/
def readNewContent (fileContent : List Char) (oldSize newSize : Nat)
    (o : ReadOutcome) : List Char :=
  match o with
  | .openErr => []
  | .seekErr => []
  | .readErr => []
  | .ok n =>
    let reqLen := newSize - oldSize
    let got := (fileContent.drop oldSize).take (min n reqLen)
    got ++ List.replicate (reqLen - got.length) (Char.ofNat 0)

/-- Go `kafka.Message` as built by `sendToKafka`: key
`fmt.Sprintf("hdfs-log-%d", time.Now().UnixNano())`, value the raw message
bytes, the configured topic, and the current timestamp. -/
structure OutboundMessage where
  topic : String
  value : List Char
  key : List Char
  timestamp : Nat
deriving DecidableEq, Repr

/-- Go `sendToKafka`: wrap the message string, unmodified, as the value of a
Kafka message with a time-derived key. -/
def sendToKafka (topic : String) (message : List Char) (nowNano : Nat) :
    OutboundMessage :=
  { topic := topic
    value := message
    key := ("hdfs-log-" ++ toString nowNano).data
    timestamp := nowNano }

/-- The environment a single poll tick observes: the `os.Stat` result, the
file's content at that instant, the outcome of the read syscalls should a
read be attempted, and the clock value used for the message key. -/
structure TickInput where
  statResult : Option FileInfo
  fileContent : List Char
  readOutcome : ReadOutcome
  nowNano : Nat
deriving DecidableEq, Repr

/-- Everything one iteration of the monitor loop does: the updated
`(lastSize, lastModTime)` state, the messages handed to
`producer.Produce`, the `(offset, length)` of each `file.Read` call
actually issued (lengths as integers, since Go computes
`newSize - oldSize` in `int64`), the byte count printed by the
"File updated" line if any, whether the "modified but size unchanged"
line was printed, and whether `getFileInfo` logged a stat warning. -/
structure TickResult where
  state : MonitorState
  sent : List OutboundMessage
  readRequests : List (Int × Int)
  bytesAddedReport : Option Nat
  metaOnlyReport : Bool
  statWarning : Bool
deriving DecidableEq, Repr

/-- One iteration of the Kafka-variant monitor loop (`for range ticker.C`):
stat the file; if `currentSize > lastSize`, report the growth, run
`readNewContent`, send the result to Kafka when it is non-empty, and set
`lastSize, lastModTime := currentSize, currentModTime` (unconditionally in
this branch); else if `currentModTime.After(lastModTime)`, report a
metadata-only change and refresh only `lastModTime`; else do nothing.
A `file.Read` request is issued exactly when the growth branch is taken and
neither open nor seek failed. -/
def monitorTick (topic : String) (st : MonitorState) (inp : TickInput) :
    TickResult :=
  let fi := getFileInfo inp.statResult
  if fi.size > st.lastSize then
    let newContent := readNewContent inp.fileContent st.lastSize fi.size
      inp.readOutcome
    { state := ⟨fi.size, fi.modTime⟩
      sent :=
        if newContent = [] then []
        else [sendToKafka topic newContent inp.nowNano]
      readRequests :=
        match inp.readOutcome with
        | .openErr => []
        | .seekErr => []
        | _ => [((st.lastSize : Int), (fi.size : Int) - (st.lastSize : Int))]
      bytesAddedReport := some (fi.size - st.lastSize)
      metaOnlyReport := false
      statWarning := inp.statResult.isNone }
  else if fi.modTime > st.lastModTime then
    { state := ⟨st.lastSize, fi.modTime⟩
      sent := []
      readRequests := []
      bytesAddedReport := none
      metaOnlyReport := true
      statWarning := inp.statResult.isNone }
  else
    { state := st
      sent := []
      readRequests := []
      bytesAddedReport := none
      metaOnlyReport := false
      statWarning := inp.statResult.isNone }

/-- The monitor loop run over a finite prefix of ticks: thread the state
through `monitorTick` and collect every message handed to the producer,
in dispatch order. -/
def monitorRun (topic : String) :
    MonitorState → List TickInput → MonitorState × List OutboundMessage
  | st, [] => (st, [])
  | st, inp :: rest =>
    let r := monitorTick topic st inp
    let tail := monitorRun topic r.state rest
    (tail.1, r.sent ++ tail.2)

/-- Startup (`lastSize, lastModTime := getFileInfo(absPath)`): the initial
observation seeds the state; no read and no message happens here. -/
def monitorInit (statResult : Option FileInfo) : MonitorState :=
  let fi := getFileInfo statResult
  ⟨fi.size, fi.modTime⟩

/-- Go `KafkaConfig` after JSON unmarshalling (unset string fields are `""`,
unset int fields are `0`, per `encoding/json` zero values). -/
structure KafkaConfig where
  broker : String
  topic : String
  clientID : String
  maxRetry : Int
  retryBackoff : Int
  timeoutMS : Int
deriving DecidableEq, Repr

/-- The default substitution `loadKafkaConfig` performs after unmarshalling
(the file-open / read / `json.Unmarshal` steps are I/O and error out of the
function; their successful result is this function's input). -/
def loadKafkaConfig (c : KafkaConfig) : KafkaConfig :=
  { broker := c.broker
    topic := if c.topic = "" then "hdfslog" else c.topic
    clientID := if c.clientID = "" then "hdfs-log-monitor" else c.clientID
    maxRetry := if c.maxRetry = 0 then 3 else c.maxRetry
    retryBackoff := if c.retryBackoff = 0 then 100 else c.retryBackoff
    timeoutMS := if c.timeoutMS = 0 then 5000 else c.timeoutMS }

/-- The `kafka.ConfigMap` handed to `kafka.NewProducer`. -/
structure ProducerConfig where
  bootstrapServers : String
  clientId : String
  retries : Int
  retryBackoffMs : Int
  socketTimeoutMs : Int
  acks : String
deriving DecidableEq, Repr

/-- Go `createKafkaProducer`: the config map it builds. Note the source sets
`bootstrap.servers` to the literal `"192.168.100.98:9092"`, not
`config.Broker`, while logging "Configuring Kafka producer with broker:"
followed by `config.Broker`. -/
def createKafkaProducer (config : KafkaConfig) : ProducerConfig :=
  { bootstrapServers := "192.168.100.98:9092"
    clientId := config.clientID
    retries := config.maxRetry
    retryBackoffMs := config.retryBackoff
    socketTimeoutMs := config.timeoutMS
    acks := "1" }

example :
    readNewContent "abcdef".data 2 6 (.ok 4) = "cdef".data := by decide

example :
    readNewContent "abcdef".data 2 6 (.ok 2) =
      "cd".data ++ [Char.ofNat 0, Char.ofNat 0] := by decide

example :
    (monitorTick "t" ⟨2, 0⟩ ⟨some ⟨6, 5⟩, "abcdef".data, .ok 4, 7⟩).sent =
      [⟨"t", "cdef".data, ("hdfs-log-7").data, 7⟩] := by decide

/-- A tick whose observed size does not exceed `lastSize` sends nothing and
leaves `lastSize` unchanged (either the metadata branch or the no-op branch
runs). Shared helper for the baseline and continuity results. -/
theorem tick_no_growth_no_message (topic : String) (st : MonitorState)
    (inp : TickInput)
    (hle : (getFileInfo inp.statResult).size ≤ st.lastSize) :
    (monitorTick topic st inp).sent = [] ∧
    (monitorTick topic st inp).state.lastSize = st.lastSize := by
  simp only [monitorTick]
  rw [if_neg (by omega : ¬ (getFileInfo inp.statResult).size > st.lastSize)]
  split_ifs <;> exact ⟨rfl, rfl⟩

/-- Claim C1 is FALSE as stated: concrete growth tick (recorded size 0,
observed size 74) whose read fails; no message is dispatched, but the
recorded `lastSize` is advanced to 74 instead of being left at 0, so the
range is not retried. -/
theorem read_error_retry_counterexample :
    (monitorTick "hdfslog" ⟨0, 0⟩ ⟨some ⟨74, 10⟩, [], .readErr, 0⟩).sent
        = [] ∧
    (monitorTick "hdfslog" ⟨0, 0⟩
        ⟨some ⟨74, 10⟩, [], .readErr, 0⟩).state.lastSize = 74 ∧
    ¬ (monitorTick "hdfslog" ⟨0, 0⟩
        ⟨some ⟨74, 10⟩, [], .readErr, 0⟩).state.lastSize = 0 := by
  decide

/-- Claim C1 (amended): on a growth tick whose delta read fails (open, seek
or read error), no message is dispatched, but the state is nevertheless
advanced to `(currentSize, currentMtime)`, so the failed byte range is
skipped, not retried. -/
theorem read_error_no_message_state_advanced (topic : String)
    (st : MonitorState) (inp : TickInput) (fi : FileInfo)
    (hstat : inp.statResult = some fi) (hgrow : fi.size > st.lastSize)
    (herr : inp.readOutcome.isErr = true) :
    (monitorTick topic st inp).sent = [] ∧
    (monitorTick topic st inp).state = ⟨fi.size, fi.modTime⟩ := by
  have hread : readNewContent inp.fileContent st.lastSize fi.size
      inp.readOutcome = [] := by
    cases h : inp.readOutcome <;>
      simp_all [ReadOutcome.isErr, readNewContent]
  simp only [monitorTick, hstat, getFileInfo]
  rw [if_pos hgrow]
  simp [hread]

/-- Witness for the amended C1 at a concrete seek failure. -/
theorem read_error_no_message_state_advanced_witness :
    (monitorTick "hdfslog" ⟨0, 0⟩
        ⟨some ⟨74, 10⟩, "ab".data, .seekErr, 3⟩).sent = [] ∧
    (monitorTick "hdfslog" ⟨0, 0⟩
        ⟨some ⟨74, 10⟩, "ab".data, .seekErr, 3⟩).state = ⟨74, 10⟩ :=
  read_error_no_message_state_advanced "hdfslog" ⟨0, 0⟩
    ⟨some ⟨74, 10⟩, "ab".data, .seekErr, 3⟩ ⟨74, 10⟩ rfl (by decide)
    (by decide)

/-- Claim C2 is FALSE as stated: concrete growth tick requesting 10 bytes
where the single read returns only 4; the scheduler advances `lastSize` to
10 (the requested end), not to 4 (the bytes actually read). -/
theorem short_read_advance_counterexample :
    (monitorTick "hdfslog" ⟨0, 0⟩
        ⟨some ⟨10, 1⟩, "abcdefghij".data, .ok 4, 0⟩).state.lastSize = 10 ∧
    ¬ (monitorTick "hdfslog" ⟨0, 0⟩
        ⟨some ⟨10, 1⟩, "abcdefghij".data, .ok 4, 0⟩).state.lastSize = 4 := by
  decide

/-- Claim C2 (amended): on a growth tick the reader issues exactly one read
request, for the whole interval, and whatever byte count `n` that single
read returns, the scheduler advances `lastSize` to the observed
`currentSize` — the requested end — never to the bytes actually read. -/
theorem single_read_full_advance (topic : String) (st : MonitorState)
    (inp : TickInput) (fi : FileInfo) (n : Nat)
    (hstat : inp.statResult = some fi) (hgrow : fi.size > st.lastSize)
    (hok : inp.readOutcome = .ok n) :
    (monitorTick topic st inp).readRequests =
      [((st.lastSize : Int), (fi.size : Int) - (st.lastSize : Int))] ∧
    (monitorTick topic st inp).state.lastSize = fi.size := by
  simp only [monitorTick, hstat, getFileInfo, hok]
  rw [if_pos hgrow]
  exact ⟨rfl, rfl⟩

/-- Witness for the amended C2: the short read of the counterexample issues
one read request for the full interval and still advances to size 10. -/
theorem single_read_full_advance_witness :
    (monitorTick "hdfslog" ⟨0, 0⟩
        ⟨some ⟨10, 1⟩, "abcdefghij".data, .ok 4, 0⟩).readRequests =
      [((0 : Int), (10 : Int) - (0 : Int))] ∧
    (monitorTick "hdfslog" ⟨0, 0⟩
        ⟨some ⟨10, 1⟩, "abcdefghij".data, .ok 4, 0⟩).state.lastSize = 10 :=
  single_read_full_advance "hdfslog" ⟨0, 0⟩
    ⟨some ⟨10, 1⟩, "abcdefghij".data, .ok 4, 0⟩ ⟨10, 1⟩ 4 rfl (by decide)
    rfl

/-- Claim C3 (confirmed): from recorded size 0, appending any 74-byte
content and reading it back in full makes the next tick report exactly 74
new bytes and dispatch exactly one message whose value is the appended
content, unmodified. -/
theorem growth_full_read_dispatches_payload (topic : String)
    (t0 t1 nowNano : Nat) (appended : List Char)
    (hlen : appended.length = 74) :
    (monitorTick topic ⟨0, t0⟩
        ⟨some ⟨74, t1⟩, appended, .ok 74, nowNano⟩).bytesAddedReport =
      some 74 ∧
    List.map OutboundMessage.value
        (monitorTick topic ⟨0, t0⟩
          ⟨some ⟨74, t1⟩, appended, .ok 74, nowNano⟩).sent =
      [appended] := by
  have hne : appended ≠ [] := by
    intro h
    rw [h] at hlen
    simp at hlen
  have hread : readNewContent appended 0 74 (.ok 74) = appended := by
    simp only [readNewContent, List.drop_zero, Nat.sub_zero, min_self]
    rw [← hlen, List.take_length]
    simp [hlen]
  simp only [monitorTick, getFileInfo]
  rw [if_pos (by omega : (74 : Nat) > 0)]
  simp [hread, hne, sendToKafka]

/-- Witness for C3 at a concrete 74-byte payload. -/
theorem growth_full_read_dispatches_payload_witness :
    (monitorTick "hdfslog" ⟨0, 11⟩
        ⟨some ⟨74, 12⟩, List.replicate 74 'x', .ok 74, 9⟩).bytesAddedReport =
      some 74 ∧
    List.map OutboundMessage.value
        (monitorTick "hdfslog" ⟨0, 11⟩
          ⟨some ⟨74, 12⟩, List.replicate 74 'x', .ok 74, 9⟩).sent =
      [List.replicate 74 'x'] :=
  growth_full_read_dispatches_payload "hdfslog" 11 12 9
    (List.replicate 74 'x') (by decide)

/-- Claim C4 is refuted at a concrete accepted configuration: the producer's
`bootstrap.servers` is the hardcoded literal "192.168.100.98:9092", not the
broker address "localhost:9092" carried by the configuration — even though
the source's own log line claims it configures the producer with
`config.Broker`. -/
theorem producer_ignores_config_broker :
    (createKafkaProducer
        ⟨"localhost:9092", "hdfslog", "hdfs-log-monitor", 3, 100,
          5000⟩).bootstrapServers = "192.168.100.98:9092" ∧
    ¬ ("localhost:9092" : String) = "192.168.100.98:9092" := by
  constructor
  · rfl
  · decide

/-- Claim C5 (confirmed): on a tick whose stat fails, `getFileInfo` logs a
warning and returns `(0, zero time)`; neither branch of the loop fires, so
the prior state is retained, nothing is sent, and the run over the
remaining ticks is exactly the run that simply retries them. -/
theorem stat_failure_preserves_state (topic : String) (st : MonitorState)
    (inp : TickInput) (rest : List TickInput)
    (hstat : inp.statResult = none) :
    (monitorTick topic st inp).statWarning = true ∧
    (monitorTick topic st inp).state = st ∧
    (monitorTick topic st inp).sent = [] ∧
    monitorRun topic st (inp :: rest) = monitorRun topic st rest := by
  have h1 : monitorTick topic st inp =
      { state := st, sent := [], readRequests := [],
        bytesAddedReport := none, metaOnlyReport := false,
        statWarning := true } := by
    simp only [monitorTick, hstat, getFileInfo, Option.isNone]
    split_ifs with hg hm <;> first | rfl | omega
  refine ⟨by rw [h1], by rw [h1], by rw [h1], ?_⟩
  simp only [monitorRun, h1, List.nil_append]

/-- Witness for C5 at a concrete failing stat. -/
theorem stat_failure_preserves_state_witness :
    (monitorTick "hdfslog" ⟨9, 7⟩ ⟨none, [], .ok 0, 0⟩).statWarning
        = true ∧
    (monitorTick "hdfslog" ⟨9, 7⟩ ⟨none, [], .ok 0, 0⟩).state = ⟨9, 7⟩ ∧
    (monitorTick "hdfslog" ⟨9, 7⟩ ⟨none, [], .ok 0, 0⟩).sent = [] ∧
    monitorRun "hdfslog" ⟨9, 7⟩
        [⟨none, [], .ok 0, 0⟩, ⟨some ⟨9, 8⟩, [], .ok 0, 1⟩] =
      monitorRun "hdfslog" ⟨9, 7⟩ [⟨some ⟨9, 8⟩, [], .ok 0, 1⟩] :=
  stat_failure_preserves_state "hdfslog" ⟨9, 7⟩ ⟨none, [], .ok 0, 0⟩
    [⟨some ⟨9, 8⟩, [], .ok 0, 1⟩] rfl

/-- Claim C6 (confirmed): on a tick whose observed size is strictly smaller
than the recorded size, no `file.Read` request is issued at all — in
particular none with a negative byte count — and no message is dispatched;
`monitorTick` is a total function, so the tick cannot crash. -/
theorem shrinkage_no_read_no_message (topic : String) (st : MonitorState)
    (inp : TickInput) (fi : FileInfo) (hstat : inp.statResult = some fi)
    (hshrink : fi.size < st.lastSize) :
    (monitorTick topic st inp).readRequests = [] ∧
    (monitorTick topic st inp).sent = [] := by
  simp only [monitorTick, hstat, getFileInfo]
  rw [if_neg (by omega : ¬ fi.size > st.lastSize)]
  split_ifs <;> exact ⟨rfl, rfl⟩

/-- Witness for C6 at a concrete truncation. -/
theorem shrinkage_no_read_no_message_witness :
    (monitorTick "hdfslog" ⟨10, 0⟩
        ⟨some ⟨4, 9⟩, "abcd".data, .ok 4, 0⟩).readRequests = [] ∧
    (monitorTick "hdfslog" ⟨10, 0⟩
        ⟨some ⟨4, 9⟩, "abcd".data, .ok 4, 0⟩).sent = [] :=
  shrinkage_no_read_no_message "hdfslog" ⟨10, 0⟩
    ⟨some ⟨4, 9⟩, "abcd".data, .ok 4, 0⟩ ⟨4, 9⟩ rfl (by decide)

/-- Claim C7 (confirmed): on a tick with the observed size equal to the
recorded size and a strictly newer modification time, the metadata-only
observation is reported, nothing is sent, only `lastModTime` is refreshed
and `lastSize` is unchanged. -/
theorem metadata_only_updates_mtime (topic : String) (st : MonitorState)
    (inp : TickInput) (fi : FileInfo) (hstat : inp.statResult = some fi)
    (hsize : fi.size = st.lastSize)
    (hm : fi.modTime > st.lastModTime) :
    (monitorTick topic st inp).metaOnlyReport = true ∧
    (monitorTick topic st inp).sent = [] ∧
    (monitorTick topic st inp).state.lastSize = st.lastSize ∧
    (monitorTick topic st inp).state.lastModTime = fi.modTime := by
  simp only [monitorTick, hstat, getFileInfo]
  rw [if_neg (by omega : ¬ fi.size > st.lastSize), if_pos hm]
  exact ⟨rfl, rfl, rfl, rfl⟩

/-- Witness for C7 at a concrete touch. -/
theorem metadata_only_updates_mtime_witness :
    (monitorTick "hdfslog" ⟨9, 5⟩
        ⟨some ⟨9, 8⟩, "123456789".data, .ok 0, 0⟩).metaOnlyReport = true ∧
    (monitorTick "hdfslog" ⟨9, 5⟩
        ⟨some ⟨9, 8⟩, "123456789".data, .ok 0, 0⟩).sent = [] ∧
    (monitorTick "hdfslog" ⟨9, 5⟩
        ⟨some ⟨9, 8⟩, "123456789".data, .ok 0, 0⟩).state.lastSize = 9 ∧
    (monitorTick "hdfslog" ⟨9, 5⟩
        ⟨some ⟨9, 8⟩, "123456789".data, .ok 0, 0⟩).state.lastModTime = 8 :=
  metadata_only_updates_mtime "hdfslog" ⟨9, 5⟩
    ⟨some ⟨9, 8⟩, "123456789".data, .ok 0, 0⟩ ⟨9, 8⟩ rfl rfl (by decide)

/-- Claim C8 (confirmed): startup only seeds the recorded state from the
initial observation and emits nothing; as long as every subsequent tick
observes the same size, the whole run dispatches zero messages — the
pre-existing content is never treated as new. -/
theorem baseline_no_messages (topic : String) (s0 : FileInfo)
    (inps : List TickInput)
    (hconst : ∀ inp ∈ inps, (getFileInfo inp.statResult).size = s0.size) :
    monitorInit (some s0) = ⟨s0.size, s0.modTime⟩ ∧
    (monitorRun topic (monitorInit (some s0)) inps).2 = [] := by
  refine ⟨rfl, ?_⟩
  have key : ∀ (l : List TickInput) (st : MonitorState),
      st.lastSize = s0.size →
      (∀ inp ∈ l, (getFileInfo inp.statResult).size = s0.size) →
      (monitorRun topic st l).2 = [] := by
    intro l
    induction l with
    | nil => intro st _ _; rfl
    | cons inp rest ih =>
      intro st hst hall
      have h1 := tick_no_growth_no_message topic st inp (by
        rw [hall inp (List.mem_cons_self inp rest), hst])
      simp only [monitorRun, h1.1, List.nil_append]
      exact ih (monitorTick topic st inp).state (by rw [h1.2, hst])
        (fun i hi => hall i (List.mem_cons_of_mem _ hi))
  exact key inps (monitorInit (some s0)) rfl hconst

/-- Witness for C8: a 9-byte file observed unchanged over two ticks (one
with a newer mtime) yields no messages. -/
theorem baseline_no_messages_witness :
    monitorInit (some ⟨9, 100⟩) = ⟨9, 100⟩ ∧
    (monitorRun "hdfslog" (monitorInit (some ⟨9, 100⟩))
        [⟨some ⟨9, 100⟩, "123456789".data, .ok 0, 0⟩,
         ⟨some ⟨9, 200⟩, "123456789".data, .ok 0, 1⟩]).2 = [] :=
  baseline_no_messages "hdfslog" ⟨9, 100⟩
    [⟨some ⟨9, 100⟩, "123456789".data, .ok 0, 0⟩,
     ⟨some ⟨9, 200⟩, "123456789".data, .ok 0, 1⟩] (by decide)

/-- Claim C9 (confirmed): a configuration whose topic, client id, max-retry,
retry-backoff and timeout fields are unset (JSON zero values) loads with the
defaults "hdfslog", "hdfs-log-monitor", 3, 100 and 5000, and the broker
field passes through. -/
theorem config_defaults_applied (c : KafkaConfig) (ht : c.topic = "")
    (hc : c.clientID = "") (hm : c.maxRetry = 0) (hr : c.retryBackoff = 0)
    (hto : c.timeoutMS = 0) :
    loadKafkaConfig c =
      ⟨c.broker, "hdfslog", "hdfs-log-monitor", 3, 100, 5000⟩ := by
  simp [loadKafkaConfig, ht, hc, hm, hr, hto]

/-- Witness for C9 at a concrete all-defaults configuration. -/
theorem config_defaults_applied_witness :
    loadKafkaConfig ⟨"broker1:9092", "", "", 0, 0, 0⟩ =
      ⟨"broker1:9092", "hdfslog", "hdfs-log-monitor", 3, 100, 5000⟩ :=
  config_defaults_applied ⟨"broker1:9092", "", "", 0, 0, 0⟩ rfl rfl rfl
    rfl rfl

/-- Claim C10 (confirmed): when the single read returns `n` bytes with no
error but fewer than requested, the returned payload still has the full
requested length, its tail past the `n` bytes actually read is zero bytes
never read from the file, and that padded payload is what the tick sends. -/
theorem short_read_zero_padded_dispatch (topic : String)
    (st : MonitorState) (fi : FileInfo) (content : List Char)
    (n nowNano : Nat) (hgrow : st.lastSize < fi.size)
    (hshort : n < fi.size - st.lastSize) (hlen : fi.size ≤ content.length) :
    (readNewContent content st.lastSize fi.size (.ok n)).length =
      fi.size - st.lastSize ∧
    (readNewContent content st.lastSize fi.size (.ok n)).drop n =
      List.replicate (fi.size - st.lastSize - n) (Char.ofNat 0) ∧
    (monitorTick topic st ⟨some fi, content, .ok n, nowNano⟩).sent =
      [sendToKafka topic
        (readNewContent content st.lastSize fi.size (.ok n)) nowNano] := by
  have hmin : min n (fi.size - st.lastSize) = n := by omega
  have hgotlen : ((content.drop st.lastSize).take n).length = n := by
    rw [List.length_take, List.length_drop]
    omega
  have hread : readNewContent content st.lastSize fi.size (.ok n) =
      (content.drop st.lastSize).take n ++
        List.replicate (fi.size - st.lastSize - n) (Char.ofNat 0) := by
    simp only [readNewContent, hmin, hgotlen]
  have hlenfull :
      (readNewContent content st.lastSize fi.size (.ok n)).length =
        fi.size - st.lastSize := by
    rw [hread]
    simp only [List.length_append, List.length_replicate, hgotlen]
    omega
  refine ⟨hlenfull, ?_, ?_⟩
  · rw [hread]
    exact List.drop_left' hgotlen
  · have hne : readNewContent content st.lastSize fi.size (.ok n) ≠ [] := by
      intro h
      rw [h] at hlenfull
      simp at hlenfull
      omega
    simp only [monitorTick, getFileInfo]
    rw [if_pos (by omega : fi.size > st.lastSize)]
    simp only [if_neg hne]

/-- Witness for C10: requesting 4 bytes, the read returns 2; the payload is
"cd" plus two zero bytes and is dispatched as such. -/
theorem short_read_zero_padded_dispatch_witness :
    (readNewContent "abcdef".data 2 6 (.ok 2)).length = 4 ∧
    (readNewContent "abcdef".data 2 6 (.ok 2)).drop 2 =
      List.replicate 2 (Char.ofNat 0) ∧
    (monitorTick "hdfslog" ⟨2, 0⟩
        ⟨some ⟨6, 1⟩, "abcdef".data, .ok 2, 5⟩).sent =
      [sendToKafka "hdfslog" (readNewContent "abcdef".data 2 6 (.ok 2)) 5] :=
  short_read_zero_padded_dispatch "hdfslog" ⟨2, 0⟩ ⟨6, 1⟩ "abcdef".data 2 5
    (by decide) (by decide) (by decide)
